import Mathlib

/-!
Verification of the voxy spatial-addressing core: a shallow embedding of
the shell-traversal iterator (include/voxy/iterator.hpp), the dense voxel
chunk (include/voxy/chunk.hpp) and the 3x3x3 chunk cluster
(include/voxy/cluster.hpp), together with proofs about the embedded
operations.

Modelling conventions:
* machine integers are modelled as Nat (the template parameter T defaults
  to uint8_t and all values used by the algorithms stay well inside the
  unsigned range; the single place where a C++ value would wrap, the final
  decrement of the expand iterator's negative index, produces a value that
  is never read afterwards, so Nat truncated subtraction yields the same
  visit trace);
* cluster-relative voxel coordinates are int16_t in the source and are
  modelled as Int;
* the visitor callback of the iterator is modelled by returning the list
  of visited coordinates in callback order;
* C-style while loops are modelled by structurally recursive functions
  carrying a fuel argument; callers pass a fuel that dominates the number
  of iterations of the corresponding C++ loop, so the guard test inside
  the body, mirrored from the source, is what actually stops recursion;
* a C++ chunk pointer is modelled as an Option, except for isComplete,
  which in the source computes on raw pointer addresses and is therefore
  modelled on addresses (Nat, 0 = nullptr, a valid object has a nonzero
  address);
* assertion-checked failure (debug build semantics) is modelled by Option:
  none means the assertion fires and the operation does not complete. This
  covers Chunk3D::copy and the assert(center > 0) of runCenterIterator3D,
  which is live: prepareIterator3D yields center = 0 exactly at size 2, so
  the size-2 expand and shrink traversals abort instead of completing (and
  visit nothing beforehand: expand asserts before its first visit, and the
  size-2 shrink loop emits no layer before the final center assert).
-/

/-- A visited 3D point (x, y, z). -/
abbrev Pt := Nat × Nat × Nat

/-- Trace of a C++ loop for (v = a; v <= b; v++). -/
def natRangeIncl (a b : Nat) : List Nat :=
  (List.range (b + 1 - a)).map fun i => a + i

/-- Trace of a C++ loop for (v = a; v < b; v++). -/
def natRangeExcl (a b : Nat) : List Nat :=
  (List.range (b - a)).map fun i => a + i

/-- Visit order of a triple nested loop: z outermost, then y, then x
innermost, mirroring the nesting used throughout iterator.hpp. -/
def prod3 (xs ys zs : List Nat) : List Pt :=
  zs.flatMap fun z => ys.flatMap fun y => xs.map fun x => (x, y, z)

/-- Embeds voxy::runLayerIterator3D: the six face loops of the cubic shell
bounded by [negative, positive] on every axis, in source order (two Z
faces over full X*Y, two Y faces with Z restricted to the open interior,
two X faces with Y and Z restricted to the open interior). -/
def runLayerIterator3D (positive negative : Nat) : List Pt :=
  prod3 (natRangeIncl negative positive) (natRangeIncl negative positive) [negative] ++
  prod3 (natRangeIncl negative positive) (natRangeIncl negative positive) [positive] ++
  prod3 (natRangeIncl negative positive) [negative] (natRangeIncl (negative + 1) (positive - 1)) ++
  prod3 (natRangeIncl negative positive) [positive] (natRangeIncl (negative + 1) (positive - 1)) ++
  prod3 [negative] (natRangeIncl (negative + 1) (positive - 1)) (natRangeIncl (negative + 1) (positive - 1)) ++
  prod3 [positive] (natRangeIncl (negative + 1) (positive - 1)) (natRangeIncl (negative + 1) (positive - 1))

/-- Embeds voxy::prepareIterator3D; returns (center, positive, isEven). -/
def prepareIterator3D (size : Nat) : Nat × Nat × Bool :=
  let center := size / 2
  let isEven := size % 2 == 0
  let center := if isEven then center - 1 else center
  let positive := if isEven then center + 2 else center + 1
  (center, positive, isEven)

/-- The visit list of voxy::runCenterIterator3D once its asserts have
passed: for even sizes the 2x2x2 block [center, positive) on each axis
via a triple nested loop, for odd sizes the single central cell. -/
def runCenterPoints3D (center positive : Nat) (isEven : Bool) : List Pt :=
  if isEven then
    prod3 (natRangeExcl center positive) (natRangeExcl center positive)
      (natRangeExcl center positive)
  else
    [(center, center, center)]

/-- Embeds voxy::runCenterIterator3D including its assert(center > 0) and
assert(positive > 0): none models a firing assertion (the debug build
aborts before visiting any center cell). The center assert is live, since
prepareIterator3D yields center = 0 exactly at size 2. -/
def runCenterIterator3D (center positive : Nat) (isEven : Bool) : Option (List Pt) :=
  if 0 < center ∧ 0 < positive then some (runCenterPoints3D center positive isEven)
  else none

/-- Embeds voxy::beginExpandIterator3D; returns the center-unit trace
(none when the center assert fires) and the initial (positive, negative)
layer indices. -/
def beginExpandIterator3D (size : Nat) : Option (List Pt) × Nat × Nat :=
  ((runCenterIterator3D (prepareIterator3D size).1 (prepareIterator3D size).2.1
      (prepareIterator3D size).2.2),
    (prepareIterator3D size).2.1, (prepareIterator3D size).1 - 1)

/-- Embeds voxy::checkExpandIterator3D. -/
def checkExpandIterator3D (size positive : Nat) : Bool :=
  positive < size

/-- Embeds voxy::checkShrinkIterator3D. -/
def checkShrinkIterator3D (positive negative : Nat) : Bool :=
  positive - negative > 1

/-- The while loop of voxy::expandIterator3D (layer run then
advanceExpandIterator3D), with fuel dominating the iteration count. -/
def expandIteratorLoop3D : Nat → Nat → Nat → Nat → List Pt
  | 0, _, _, _ => []
  | fuel + 1, size, positive, negative =>
    if checkExpandIterator3D size positive then
      runLayerIterator3D positive negative ++
        expandIteratorLoop3D fuel size (positive + 1) (negative - 1)
    else []

/-- Embeds voxy::expandIterator3D: center unit first, then shells growing
outward while positive < size; none when the center assert fires (at
size 2 the debug build aborts before any visit). -/
def expandIterator3D (size : Nat) : Option (List Pt) :=
  ((beginExpandIterator3D size).1).map fun pts =>
    pts ++ expandIteratorLoop3D size size (beginExpandIterator3D size).2.1
      (beginExpandIterator3D size).2.2

/-- Embeds voxy::beginShrinkIterator3D; returns (positive, negative). -/
def beginShrinkIterator3D (size : Nat) : Nat × Nat :=
  (size - 1, 0)

/-- Embeds voxy::endShrinkIterator3D: the final center-unit emission
(none when the center assert fires). -/
def endShrinkIterator3D (size : Nat) : Option (List Pt) :=
  runCenterIterator3D (prepareIterator3D size).1 (prepareIterator3D size).2.1
    (prepareIterator3D size).2.2

/-- The while loop of voxy::shrinkIterator3D (layer run then
advanceShrinkIterator3D), with fuel dominating the iteration count. -/
def shrinkIteratorLoop3D : Nat → Nat → Nat → List Pt
  | 0, _, _ => []
  | fuel + 1, positive, negative =>
    if checkShrinkIterator3D positive negative then
      runLayerIterator3D positive negative ++
        shrinkIteratorLoop3D fuel (positive - 1) (negative + 1)
    else []

/-- Embeds voxy::shrinkIterator3D: shells shrinking inward from the outer
bounds while positive - negative > 1, then the center unit; none when the
final center assert fires, aborting the traversal (at the only firing
size, 2, the loop has emitted no layer beforehand). -/
def shrinkIterator3D (size : Nat) : Option (List Pt) :=
  (endShrinkIterator3D size).map fun pts =>
    shrinkIteratorLoop3D size (beginShrinkIterator3D size).1
      (beginShrinkIterator3D size).2 ++ pts

/-- Shell-grouped form of the expand while loop: the same traversal with
one list per emitted shell. -/
def expandShellLoop3D : Nat → Nat → Nat → Nat → List (List Pt)
  | 0, _, _, _ => []
  | fuel + 1, size, positive, negative =>
    if checkExpandIterator3D size positive then
      runLayerIterator3D positive negative ::
        expandShellLoop3D fuel size (positive + 1) (negative - 1)
    else []

/-- Shell sequence of expandIterator3D: the center unit, then each emitted
shell in emission order; none when the traversal aborts. -/
def expandShells3D (size : Nat) : Option (List (List Pt)) :=
  ((beginExpandIterator3D size).1).map fun pts =>
    pts :: expandShellLoop3D size size (beginExpandIterator3D size).2.1
      (beginExpandIterator3D size).2.2

/-- Shell-grouped form of the shrink while loop. -/
def shrinkShellLoop3D : Nat → Nat → Nat → List (List Pt)
  | 0, _, _ => []
  | fuel + 1, positive, negative =>
    if checkShrinkIterator3D positive negative then
      runLayerIterator3D positive negative ::
        shrinkShellLoop3D fuel (positive - 1) (negative + 1)
    else []

/-- Shell sequence of shrinkIterator3D: each emitted shell in emission
order, then the center unit; none when the traversal aborts. -/
def shrinkShells3D (size : Nat) : Option (List (List Pt)) :=
  (endShrinkIterator3D size).map fun pts =>
    shrinkShellLoop3D size (beginShrinkIterator3D size).1
      (beginShrinkIterator3D size).2 ++ [pts]

/-- Membership in the axis-aligned cube [lo, hi] on every axis. -/
def inCube (lo hi : Nat) (q : Pt) : Prop :=
  lo ≤ q.1 ∧ q.1 ≤ hi ∧ lo ≤ q.2.1 ∧ q.2.1 ≤ hi ∧ lo ≤ q.2.2 ∧ q.2.2 ≤ hi

instance (lo hi : Nat) (q : Pt) : Decidable (inCube lo hi q) := by
  unfold inCube; infer_instance

/-- Indicator of inCube, used to count visits. -/
def cubeInd (lo hi : Nat) (q : Pt) : Nat :=
  if inCube lo hi q then 1 else 0

/-- Embeds voxy::posToIndex (chunk.hpp): linear index of (x, y, z) in the
layout where X varies fastest, then Y, then Z. -/
def posToIndex (x y z length layerSize : Nat) : Nat :=
  z * layerSize + y * length + x

/-- Embeds voxy::indexToPos (chunk.hpp); returns (x, y, z). -/
def indexToPos (index length layerSize : Nat) : Pt :=
  let z := index / layerSize
  let index := index % layerSize
  let y := index / length
  let x := index % length
  (x, y, z)

/-- Embeds Chunk3D::tryGet for a chunk of extents (SX, SY, SZ): the source
computes the linear index and rejects it only when it reaches the array
size SX*SY*SZ; on success the voxel at that linear index is produced
(none models returning false with the out-parameter untouched). -/
def Chunk3D.tryGet (SX SY SZ : Nat) (voxels : Nat → Nat) (x y z : Nat) : Option Nat :=
  let index := posToIndex x y z SX (SX * SY)
  if SX * SY * SZ ≤ index then none
  else some (voxels index)

/-- Embeds Chunk3D::trySet: same linear-index guard as tryGet; on success
the voxel array updated at the linear index (none models returning false
with the array untouched). -/
def Chunk3D.trySet (SX SY SZ : Nat) (voxels : Nat → Nat) (x y z v : Nat) : Option (Nat → Nat) :=
  let index := posToIndex x y z SX (SX * SY)
  if SX * SY * SZ ≤ index then none
  else some fun i => if i = index then v else voxels i

/-- One memcpy row of Chunk3D::copy: countX voxels taken from the other
array starting at otherOffset, written at thisOffset. -/
def Chunk3D.copyRow (voxels other : Nat → Nat) (thisOffset otherOffset countX : Nat) :
    Nat → Nat :=
  fun i => if thisOffset ≤ i ∧ i < thisOffset + countX then other (otherOffset + (i - thisOffset))
  else voxels i

/-- Embeds the partial-region Chunk3D::copy for a destination chunk of
extents (SX, SY, SZ). The four assert conditions of the source gate the
copy (none = an assertion fires, debug-build semantics, and nothing is
copied); when they pass, the z/y loop nest performs one row copy per
(y, z) of the box. -/
def Chunk3D.copy (SX SY SZ otherLength otherLayerSize : Nat) (voxels other : Nat → Nat)
    (countX countY countZ otherOffsetX otherOffsetY otherOffsetZ
      thisOffsetX thisOffsetY thisOffsetZ : Nat) : Option (Nat → Nat) :=
  if countX + thisOffsetX ≤ SX ∧ countY + thisOffsetY ≤ SY ∧ countZ + thisOffsetZ ≤ SZ ∧
      countX + otherOffsetX ≤ otherLength then
    some ((List.range countZ).foldl
      (fun acc z => (List.range countY).foldl
        (fun acc2 y =>
          Chunk3D.copyRow acc2 other
            (posToIndex thisOffsetX (y + thisOffsetY) (z + thisOffsetZ) SX (SX * SY))
            (posToIndex otherOffsetX (y + otherOffsetY) (z + otherOffsetZ) otherLength
              otherLayerSize)
            countX)
        acc)
      voxels)
  else none

/-- Embeds Cluster3D::isComplete on raw chunk pointer addresses (0 is
nullptr): the source ORs all 27 addresses into a mask and converts the
mask to bool. -/
def Cluster3D.isComplete (chunks : List Nat) : Bool :=
  decide (chunks.foldl Nat.lor 0 ≠ 0)

/-- A chunk as seen by the cluster: its voxel array by linear index. -/
abbrev ChunkFn := Int → Nat

/-- Chunk3D::get for the cubic chunks of side L used through a cluster
(cluster-rewritten coordinates are in [0, L) on every axis, so the int16
to uint8 conversions at the call sites are value-preserving). -/
def Chunk3D.get (L : Int) (c : ChunkFn) (x y z : Int) : Nat :=
  c (z * (L * L) + y * L + x)

/-- Embeds voxy::posToIndex as instantiated by Cluster3D (length 3,
layerSize 9). -/
def Cluster3D.posToIndex (x y z : Int) : Int :=
  z * 9 + y * 3 + x

/-- Embeds Cluster3D::getVoxelChunk for chunks of side L: per axis the
shifted coordinate is divided by L to pick a neighbor index, the slot is
read at the combined index, and each coordinate is reduced into the
neighbor's local space; returns (slot, x, y, z). The source asserts each
input into [-L, 2L-1], where the divisions are on nonnegative values. -/
def Cluster3D.getVoxelChunk (L : Int) (chunks : Int → Option ChunkFn) (x y z : Int) :
    Option ChunkFn × Int × Int × Int :=
  let lx := (x + L) / L
  let ly := (y + L) / L
  let lz := (z + L) / L
  (chunks (Cluster3D.posToIndex lx ly lz),
    x - (lx - 1) * L, y - (ly - 1) * L, z - (lz - 1) * L)

/-- Embeds Cluster3D::tryGetVoxelChunk: none when some coordinate is
outside [-L, 2L-1]; otherwise the same slot selection and coordinate
rewrite as getVoxelChunk (the slot itself may still be null). -/
def Cluster3D.tryGetVoxelChunk (L : Int) (chunks : Int → Option ChunkFn) (x y z : Int) :
    Option (Option ChunkFn × Int × Int × Int) :=
  if x < -L ∨ x > L * 2 - 1 ∨ y < -L ∨ y > L * 2 - 1 ∨ z < -L ∨ z > L * 2 - 1 then none
  else some (Cluster3D.getVoxelChunk L chunks x y z)

/-- Embeds Cluster3D::getVoxel: resolve the owning chunk, then read it, or
produce the caller-supplied nullVoxel when the slot is null. -/
def Cluster3D.getVoxel (L : Int) (chunks : Int → Option ChunkFn) (x y z : Int)
    (nullVoxel : Nat) : Nat :=
  match Cluster3D.getVoxelChunk L chunks x y z with
  | (some c, x1, y1, z1) => Chunk3D.get L c x1 y1 z1
  | (none, _, _, _) => nullVoxel

/-- Embeds Cluster3D::tryGetVoxel: none when the coordinate is out of the
valid range or the routed slot is null (the out-parameter is untouched),
otherwise the voxel read from the routed chunk via unsafeGet. -/
def Cluster3D.tryGetVoxel (L : Int) (chunks : Int → Option ChunkFn) (x y z : Int) :
    Option Nat :=
  match Cluster3D.tryGetVoxelChunk L chunks x y z with
  | none => none
  | some (none, _, _, _) => none
  | some (some c, x1, y1, z1) => some (Chunk3D.get L c x1 y1 z1)

/-- Embeds the Cluster3D constructor: copies the caller's slot array when
one is given, otherwise zero-fills all 27 slots (memset, every slot
nullptr). -/
def Cluster3D.make (chunks : Option (Int → Option ChunkFn)) : Int → Option ChunkFn :=
  match chunks with
  | some a => a
  | none => fun _ => none

theorem count_range_map_add (a n v : Nat) :
    (((List.range n).map fun i => a + i).count v) = if a ≤ v ∧ v < a + n then 1 else 0 := by
  induction n with
  | zero => simp; split_ifs <;> omega
  | succ n ih =>
    rw [List.range_succ, List.map_append, List.count_append, ih]
    simp [List.count_cons]
    split_ifs <;> omega

theorem count_natRangeIncl (a b v : Nat) :
    (natRangeIncl a b).count v = if a ≤ v ∧ v ≤ b then 1 else 0 := by
  rw [natRangeIncl, count_range_map_add]
  split_ifs <;> omega

theorem count_natRangeExcl (a b v : Nat) :
    (natRangeExcl a b).count v = if a ≤ v ∧ v < b then 1 else 0 := by
  rw [natRangeExcl, count_range_map_add]
  split_ifs <;> omega

theorem count_map_triple (xs : List Nat) (y z a b c : Nat) :
    ((xs.map fun x => (x, y, z)).count (a, b, c)) = if y = b ∧ z = c then xs.count a else 0 := by
  induction xs with
  | nil => simp
  | cons x t ih =>
    simp only [List.map_cons, List.count_cons, ih, Prod.mk.injEq]
    by_cases h1 : y = b ∧ z = c
    · by_cases h2 : x = a <;> simp [h1.1, h1.2, h2]
    · simp [h1]

theorem count_prod2 (xs ys : List Nat) (z a b c : Nat) :
    ((ys.flatMap fun y => xs.map fun x => (x, y, z)).count (a, b, c)) =
      if z = c then xs.count a * ys.count b else 0 := by
  induction ys with
  | nil => simp
  | cons y t ih =>
    rw [List.flatMap_cons, List.count_append, count_map_triple, ih, List.count_cons]
    by_cases h1 : z = c
    · by_cases h2 : y = b <;> simp [h1, h2] <;> ring
    · simp [h1]

theorem count_prod3 (xs ys zs : List Nat) (a b c : Nat) :
    ((prod3 xs ys zs).count (a, b, c)) = xs.count a * ys.count b * zs.count c := by
  induction zs with
  | nil => simp [prod3]
  | cons z t ih =>
    rw [prod3, List.flatMap_cons, List.count_append]
    rw [show (t.flatMap fun z => ys.flatMap fun y => xs.map fun x => (x, y, z)) = prod3 xs ys t from rfl]
    rw [count_prod2, ih, List.count_cons]
    by_cases h : z = c
    · simp [h]; ring
    · simp [h]

theorem axis_split (n p v : Nat) (h : n < p) :
    (if n ≤ v ∧ v ≤ p then 1 else 0) =
      (if n + 1 ≤ v ∧ v ≤ p - 1 then 1 else 0) + (if n = v then 1 else 0) +
        (if p = v then 1 else 0) := by
  split_ifs <;> omega

theorem count_runLayerIterator3D (p n a b c : Nat) (h : n < p) :
    (runLayerIterator3D p n).count (a, b, c) +
        (if n + 1 ≤ a ∧ a ≤ p - 1 then 1 else 0) * (if n + 1 ≤ b ∧ b ≤ p - 1 then 1 else 0) *
          (if n + 1 ≤ c ∧ c ≤ p - 1 then 1 else 0) =
      (if n ≤ a ∧ a ≤ p then 1 else 0) * (if n ≤ b ∧ b ≤ p then 1 else 0) *
        (if n ≤ c ∧ c ≤ p then 1 else 0) := by
  rw [runLayerIterator3D]
  simp only [List.count_append, count_prod3, count_natRangeIncl, List.count_cons,
    List.count_nil, Nat.zero_add, beq_iff_eq]
  rw [axis_split n p a h, axis_split n p b h, axis_split n p c h]
  ring

theorem cubeInd_eq_prod (lo hi a b c : Nat) :
    cubeInd lo hi (a, b, c) =
      (if lo ≤ a ∧ a ≤ hi then 1 else 0) * (if lo ≤ b ∧ b ≤ hi then 1 else 0) *
        (if lo ≤ c ∧ c ≤ hi then 1 else 0) := by
  rw [cubeInd]
  unfold inCube
  dsimp only
  split_ifs <;> omega

theorem count_runLayer_cube (p n : Nat) (q : Pt) (h : n < p) :
    (runLayerIterator3D p n).count q + cubeInd (n + 1) (p - 1) q = cubeInd n p q := by
  obtain ⟨a, b, c⟩ := q
  rw [cubeInd_eq_prod, cubeInd_eq_prod]
  exact count_runLayerIterator3D p n a b c h

theorem count_expandLoop (N : Nat) (q : Pt) :
    ∀ fuel p, N - p ≤ fuel → N ≤ 2 * p → p ≤ N →
      (expandIteratorLoop3D fuel N p (N - 1 - p)).count q + cubeInd (N - p) (p - 1) q =
        cubeInd 0 (N - 1) q := by
  intro fuel
  induction fuel with
  | zero =>
    intro p h1 h2 h3
    have hp : p = N := by omega
    subst hp
    simp [expandIteratorLoop3D, Nat.sub_self]
  | succ fuel ih =>
    intro p h1 h2 h3
    by_cases hc : p < N
    · rw [expandIteratorLoop3D]
      rw [if_pos (by simp [checkExpandIterator3D, hc])]
      rw [List.count_append]
      have e1 : N - 1 - p - 1 = N - 1 - (p + 1) := by omega
      rw [e1]
      have hl := count_runLayer_cube p (N - 1 - p) q (by omega)
      have e2 : N - 1 - p + 1 = N - p := by omega
      rw [e2] at hl
      have hr := ih (p + 1) (by omega) (by omega) (by omega)
      have e3 : p + 1 - 1 = p := by omega
      rw [e3] at hr
      have e4 : N - (p + 1) = N - 1 - p := by omega
      rw [e4] at hr
      omega
    · have hp : p = N := by omega
      subst hp
      rw [expandIteratorLoop3D]
      rw [if_neg (by simp [checkExpandIterator3D])]
      simp [Nat.sub_self]

theorem count_centerUnit (N : Nat) (h : 1 < N) (q : Pt) :
    (runCenterPoints3D (prepareIterator3D N).1 (prepareIterator3D N).2.1
      (prepareIterator3D N).2.2).count q = cubeInd (N - 1 - N / 2) (N / 2) q := by
  obtain ⟨a, b, c⟩ := q
  rcases Nat.mod_two_eq_zero_or_one N with h2 | h2
  · simp only [prepareIterator3D, runCenterPoints3D, h2, beq_self_eq_true, if_true]
    rw [count_prod3, count_natRangeExcl, count_natRangeExcl, count_natRangeExcl,
      cubeInd_eq_prod]
    have e : ∀ v : Nat, (if N / 2 - 1 ≤ v ∧ v < N / 2 - 1 + 2 then 1 else 0) =
        (if N - 1 - N / 2 ≤ v ∧ v ≤ N / 2 then 1 else 0) := by
      intro v
      split_ifs <;> omega
    rw [e a, e b, e c]
  · simp only [prepareIterator3D, runCenterPoints3D, h2]
    norm_num
    rw [List.count_cons]
    simp only [List.count_nil, Nat.zero_add, beq_iff_eq, Prod.mk.injEq, cubeInd, inCube]
    split_ifs <;> omega

theorem runCenter_prepare_some (N : Nat) (h : 2 < N) :
    runCenterIterator3D (prepareIterator3D N).1 (prepareIterator3D N).2.1
        (prepareIterator3D N).2.2 =
      some (runCenterPoints3D (prepareIterator3D N).1 (prepareIterator3D N).2.1
        (prepareIterator3D N).2.2) := by
  have hc : 0 < (prepareIterator3D N).1 := by
    rcases Nat.mod_two_eq_zero_or_one N with h2 | h2 <;>
      simp only [prepareIterator3D, h2] <;> norm_num <;> omega
  have hp : 0 < (prepareIterator3D N).2.1 := by
    rcases Nat.mod_two_eq_zero_or_one N with h2 | h2 <;>
      simp only [prepareIterator3D, h2] <;> norm_num <;> omega
  rw [runCenterIterator3D, if_pos ⟨hc, hp⟩]

theorem expandIterator3D_eq (N : Nat) (h : 2 < N) :
    expandIterator3D N =
      some (runCenterPoints3D (prepareIterator3D N).1 (prepareIterator3D N).2.1
          (prepareIterator3D N).2.2 ++
        expandIteratorLoop3D N N (prepareIterator3D N).2.1 ((prepareIterator3D N).1 - 1)) := by
  rw [expandIterator3D]
  rw [show (beginExpandIterator3D N).1 = runCenterIterator3D (prepareIterator3D N).1
    (prepareIterator3D N).2.1 (prepareIterator3D N).2.2 from rfl]
  rw [runCenter_prepare_some N h]
  rfl

theorem shrinkIterator3D_eq (N : Nat) (h : 2 < N) :
    shrinkIterator3D N =
      some (shrinkIteratorLoop3D N (N - 1) 0 ++
        runCenterPoints3D (prepareIterator3D N).1 (prepareIterator3D N).2.1
          (prepareIterator3D N).2.2) := by
  rw [shrinkIterator3D]
  rw [show endShrinkIterator3D N = runCenterIterator3D (prepareIterator3D N).1
    (prepareIterator3D N).2.1 (prepareIterator3D N).2.2 from rfl]
  rw [runCenter_prepare_some N h]
  rfl

theorem count_expandIterator3D (N : Nat) (h : 2 < N) (q : Pt) :
    ((expandIterator3D N).getD []).count q = cubeInd 0 (N - 1) q := by
  have hpos : (prepareIterator3D N).2.1 = N / 2 + 1 := by
    rcases Nat.mod_two_eq_zero_or_one N with h2 | h2 <;>
      simp only [prepareIterator3D, h2] <;> norm_num <;> omega
  have hneg : (prepareIterator3D N).1 - 1 = N - 1 - (N / 2 + 1) := by
    rcases Nat.mod_two_eq_zero_or_one N with h2 | h2 <;>
      simp only [prepareIterator3D, h2] <;> norm_num <;> omega
  rw [expandIterator3D_eq N h, Option.getD_some, List.count_append,
    count_centerUnit N (by omega) q, hpos, hneg]
  have hloop := count_expandLoop N q N (N / 2 + 1) (by omega) (by omega) (by omega)
  have e1 : N - (N / 2 + 1) = N - 1 - N / 2 := by omega
  have e2 : N / 2 + 1 - 1 = N / 2 := by omega
  rw [e1, e2] at hloop
  omega

theorem count_shrinkLoop (N : Nat) (q : Pt) (hN : 1 < N) :
    ∀ fuel p, p - N / 2 ≤ fuel → N / 2 ≤ p → p ≤ N - 1 →
      (shrinkIteratorLoop3D fuel p (N - 1 - p)).count q + cubeInd (N - 1 - N / 2) (N / 2) q =
        cubeInd (N - 1 - p) p q := by
  intro fuel
  induction fuel with
  | zero =>
    intro p h1 h2 h3
    have hp : p = N / 2 := by omega
    subst hp
    simp [shrinkIteratorLoop3D]
  | succ fuel ih =>
    intro p h1 h2 h3
    by_cases hc : 2 * p > N
    · rw [shrinkIteratorLoop3D]
      rw [if_pos (by simp [checkShrinkIterator3D]; omega)]
      rw [List.count_append]
      have e2 : N - 1 - p + 1 = N - p := by omega
      rw [e2]
      have hl := count_runLayer_cube p (N - 1 - p) q (by omega)
      rw [e2] at hl
      have hr := ih (p - 1) (by omega) (by omega) (by omega)
      have e3 : N - 1 - (p - 1) = N - p := by omega
      rw [e3] at hr
      omega
    · have hp : p = N / 2 := by omega
      subst hp
      rw [shrinkIteratorLoop3D]
      rw [if_neg (by simp [checkShrinkIterator3D]; omega)]
      simp

theorem count_shrinkIterator3D (N : Nat) (h : 2 < N) (q : Pt) :
    ((shrinkIterator3D N).getD []).count q = cubeInd 0 (N - 1) q := by
  rw [shrinkIterator3D_eq N h, Option.getD_some, List.count_append,
    count_centerUnit N (by omega) q]
  have hloop := count_shrinkLoop N q (by omega) N (N - 1) (by omega) (by omega) (by omega)
  have e1 : N - 1 - (N - 1) = 0 := by omega
  rw [e1] at hloop
  omega

theorem expandLoop_flatten (fuel : Nat) :
    ∀ s p n, (expandShellLoop3D fuel s p n).flatten = expandIteratorLoop3D fuel s p n := by
  induction fuel with
  | zero => intro s p n; rfl
  | succ fuel ih =>
    intro s p n
    rw [expandShellLoop3D, expandIteratorLoop3D]
    by_cases hc : checkExpandIterator3D s p = true
    · rw [if_pos hc, if_pos hc, List.flatten_cons, ih]
    · rw [if_neg hc, if_neg hc]
      rfl

theorem shrinkLoop_flatten (fuel : Nat) :
    ∀ p n, (shrinkShellLoop3D fuel p n).flatten = shrinkIteratorLoop3D fuel p n := by
  induction fuel with
  | zero => intro p n; rfl
  | succ fuel ih =>
    intro p n
    rw [shrinkShellLoop3D, shrinkIteratorLoop3D]
    by_cases hc : checkShrinkIterator3D p n = true
    · rw [if_pos hc, if_pos hc, List.flatten_cons, ih]
    · rw [if_neg hc, if_neg hc]
      rfl

theorem expandShellLoop_eq (N : Nat) :
    ∀ fuel p, N - p ≤ fuel →
      expandShellLoop3D fuel N p (N - 1 - p) =
        (List.range' p (N - p)).map fun j => runLayerIterator3D j (N - 1 - j) := by
  intro fuel
  induction fuel with
  | zero =>
    intro p h1
    have e : N - p = 0 := by omega
    rw [e]
    rfl
  | succ fuel ih =>
    intro p h1
    by_cases hc : p < N
    · rw [expandShellLoop3D, if_pos (by simp [checkExpandIterator3D, hc])]
      have e1 : N - 1 - p - 1 = N - 1 - (p + 1) := by omega
      rw [e1, ih (p + 1) (by omega)]
      rw [show N - p = N - (p + 1) + 1 from by omega, List.range'_succ]
      rw [List.map_cons]
    · rw [expandShellLoop3D, if_neg (by simp [checkExpandIterator3D]; omega)]
      rw [show N - p = 0 from by omega]
      rfl

theorem shrinkShellLoop_eq (N : Nat) (hN : 1 < N) :
    ∀ fuel p, p - N / 2 ≤ fuel → N / 2 ≤ p → p ≤ N - 1 →
      shrinkShellLoop3D fuel p (N - 1 - p) =
        ((List.range' (N / 2 + 1) (p - N / 2)).map fun j =>
          runLayerIterator3D j (N - 1 - j)).reverse := by
  intro fuel
  induction fuel with
  | zero =>
    intro p h1 h2 h3
    rw [show p - N / 2 = 0 from by omega]
    have hp : p = N / 2 := by omega
    subst hp
    rfl
  | succ fuel ih =>
    intro p h1 h2 h3
    by_cases hc : 2 * p > N
    · rw [shrinkShellLoop3D, if_pos (by simp [checkShrinkIterator3D]; omega)]
      have e1 : N - 1 - p + 1 = N - 1 - (p - 1) := by omega
      rw [e1, ih (p - 1) (by omega) (by omega) (by omega)]
      rw [show p - N / 2 = p - 1 - N / 2 + 1 from by omega, List.range'_concat]
      rw [show N / 2 + 1 + 1 * (p - 1 - N / 2) = p from by omega]
      rw [List.map_append, List.reverse_append]
      rfl
    · have hp : p = N / 2 := by omega
      subst hp
      rw [shrinkShellLoop3D, if_neg (by simp [checkShrinkIterator3D]; omega)]
      rw [show N / 2 - N / 2 = 0 from by omega]
      rfl

theorem prepare_positive (N : Nat) (h : 1 < N) : (prepareIterator3D N).2.1 = N / 2 + 1 := by
  rcases Nat.mod_two_eq_zero_or_one N with h2 | h2 <;>
    simp only [prepareIterator3D, h2] <;> norm_num <;> omega

theorem prepare_negative (N : Nat) (h : 1 < N) :
    (prepareIterator3D N).1 - 1 = N - 1 - (N / 2 + 1) := by
  rcases Nat.mod_two_eq_zero_or_one N with h2 | h2 <;>
    simp only [prepareIterator3D, h2] <;> norm_num <;> omega

theorem expandShells3D_eq (N : Nat) (h : 2 < N) :
    expandShells3D N =
      some (runCenterPoints3D (prepareIterator3D N).1 (prepareIterator3D N).2.1
          (prepareIterator3D N).2.2 ::
        expandShellLoop3D N N (prepareIterator3D N).2.1 ((prepareIterator3D N).1 - 1)) := by
  rw [expandShells3D]
  rw [show (beginExpandIterator3D N).1 = runCenterIterator3D (prepareIterator3D N).1
    (prepareIterator3D N).2.1 (prepareIterator3D N).2.2 from rfl]
  rw [runCenter_prepare_some N h]
  rfl

theorem shrinkShells3D_eq (N : Nat) (h : 2 < N) :
    shrinkShells3D N =
      some (shrinkShellLoop3D N (N - 1) 0 ++
        [runCenterPoints3D (prepareIterator3D N).1 (prepareIterator3D N).2.1
          (prepareIterator3D N).2.2]) := by
  rw [shrinkShells3D]
  rw [show endShrinkIterator3D N = runCenterIterator3D (prepareIterator3D N).1
    (prepareIterator3D N).2.1 (prepareIterator3D N).2.2 from rfl]
  rw [runCenter_prepare_some N h]
  rfl

theorem shrinkShells_reverse (N : Nat) (h : 2 < N) :
    (shrinkShells3D N).getD [] = ((expandShells3D N).getD []).reverse := by
  rw [shrinkShells3D_eq N h, expandShells3D_eq N h, Option.getD_some, Option.getD_some]
  rw [prepare_positive N (by omega), prepare_negative N (by omega)]
  rw [expandShellLoop_eq N N (N / 2 + 1) (by omega)]
  rw [show (0 : Nat) = N - 1 - (N - 1) from by omega]
  rw [shrinkShellLoop_eq N (by omega) N (N - 1) (by omega) (by omega) (by omega)]
  rw [show N - 1 - N / 2 = N - (N / 2 + 1) from by omega]
  rw [List.reverse_cons]

theorem length_prod2 (xs ys : List Nat) (z : Nat) :
    (ys.flatMap fun y => xs.map fun x => (x, y, z)).length = xs.length * ys.length := by
  induction ys with
  | nil => simp
  | cons y t ih =>
    rw [List.flatMap_cons, List.length_append, List.length_map, ih, List.length_cons]
    ring

theorem length_prod3 (xs ys zs : List Nat) :
    (prod3 xs ys zs).length = xs.length * ys.length * zs.length := by
  induction zs with
  | nil => simp [prod3]
  | cons z t ih =>
    rw [prod3, List.flatMap_cons, List.length_append]
    rw [show (t.flatMap fun z => ys.flatMap fun y => xs.map fun x => (x, y, z)) =
      prod3 xs ys t from rfl]
    rw [length_prod2, ih, List.length_cons]
    ring

theorem length_natRangeExcl (a b : Nat) : (natRangeExcl a b).length = b - a := by
  simp [natRangeExcl]

theorem flatten_reverse_perm {A : Type} (l : List (List A)) :
    List.Perm l.reverse.flatten l.flatten := by
  induction l with
  | nil => exact List.Perm.refl _
  | cons x t ih =>
    rw [List.reverse_cons, List.flatten_append, List.flatten_cons]
    have h1 : List.Perm (t.reverse.flatten ++ [x].flatten) ([x].flatten ++ t.reverse.flatten) :=
      List.perm_append_comm
    have h2 : List.Perm ([x].flatten ++ t.reverse.flatten) ([x].flatten ++ t.flatten) :=
      ih.append_left _
    have h3 := h1.trans h2
    simpa using h3

/-- Claim C1 (amended): for every cube side length N > 2, both
expandIterator3D and shrinkIterator3D complete (no assert fires) and
their traces visit every coordinate of the domain [0, N) on each of the
three axes exactly once (count 1), never visiting a coordinate outside
the domain (count 0); at N = 2 the live assert(center > 0) of
runCenterIterator3D fires and both traversals abort. -/
theorem expand_shrink_visit_exactly_once (N : Nat) (h : 2 < N) (q : Pt) :
    (expandIterator3D N).isSome = true ∧ (shrinkIterator3D N).isSome = true ∧
      ((expandIterator3D N).getD []).count q =
        (if q.1 < N ∧ q.2.1 < N ∧ q.2.2 < N then 1 else 0) ∧
      ((shrinkIterator3D N).getD []).count q =
        (if q.1 < N ∧ q.2.1 < N ∧ q.2.2 < N then 1 else 0) := by
  have e : cubeInd 0 (N - 1) q = if q.1 < N ∧ q.2.1 < N ∧ q.2.2 < N then 1 else 0 := by
    rw [cubeInd]
    unfold inCube
    split_ifs <;> omega
  refine ⟨by rw [expandIterator3D_eq N h]; rfl, by rw [shrinkIterator3D_eq N h]; rfl, ?_, ?_⟩
  · rw [count_expandIterator3D N h q, e]
  · rw [count_shrinkIterator3D N h q, e]

/-- Witness for C1 at N = 4: both traversals complete and the in-domain
coordinate (1, 2, 3) is visited exactly once by each. -/
theorem expand_shrink_visit_exactly_once_witness :
    2 < 4 ∧ (expandIterator3D 4).isSome = true ∧ (shrinkIterator3D 4).isSome = true ∧
      ((expandIterator3D 4).getD []).count (1, 2, 3) = 1 ∧
      ((shrinkIterator3D 4).getD []).count (1, 2, 3) = 1 := by
  have h := expand_shrink_visit_exactly_once 4 (by decide) (1, 2, 3)
  refine ⟨by decide, h.1, h.2.1, ?_, ?_⟩
  · have hc := h.2.2.1
    simpa using hc
  · have hc := h.2.2.2
    simpa using hc

/-- Claim C1 counterexample (original statement): at the even size N = 2,
the claim's smallest even instance, prepareIterator3D yields center 0,
the assert(center > 0) of runCenterIterator3D fires, and both traversals
abort (none) instead of invoking the visitor once per cell of the domain. -/
theorem expand_shrink_abort_at_size_two :
    1 < 2 ∧ (prepareIterator3D 2).1 = 0 ∧ expandIterator3D 2 = none ∧
      shrinkIterator3D 2 = none := by
  refine ⟨by decide, by decide, by decide, by decide⟩

/-- Claim C6 (amended): for every N > 2 both traversals complete, visit
the same multiset of coordinates, and the shell sequence emitted by
shrink is the exact reverse of the shell sequence emitted by expand (the
flatten conjuncts tie the shell sequences to the flat visit traces); at
N = 2 both traversals abort at the firing center assert. -/
theorem expand_shrink_symmetry (N : Nat) (h : 2 < N) :
    (expandShells3D N).isSome = true ∧ (shrinkShells3D N).isSome = true ∧
      ((expandShells3D N).getD []).flatten = (expandIterator3D N).getD [] ∧
      ((shrinkShells3D N).getD []).flatten = (shrinkIterator3D N).getD [] ∧
      (shrinkShells3D N).getD [] = ((expandShells3D N).getD []).reverse ∧
      (((expandIterator3D N).getD [] : List Pt) : Multiset Pt) =
        ((shrinkIterator3D N).getD [] : Multiset Pt) := by
  have e1 : ((expandShells3D N).getD []).flatten = (expandIterator3D N).getD [] := by
    rw [expandShells3D_eq N h, expandIterator3D_eq N h, Option.getD_some, Option.getD_some,
      List.flatten_cons, expandLoop_flatten]
  have e2 : ((shrinkShells3D N).getD []).flatten = (shrinkIterator3D N).getD [] := by
    rw [shrinkShells3D_eq N h, shrinkIterator3D_eq N h, Option.getD_some, Option.getD_some,
      List.flatten_append, shrinkLoop_flatten]
    simp
  refine ⟨?_, ?_, e1, e2, shrinkShells_reverse N h, ?_⟩
  · rw [expandShells3D_eq N h]
    rfl
  · rw [shrinkShells3D_eq N h]
    rfl
  · rw [Multiset.coe_eq_coe]
    rw [← e1, ← e2, shrinkShells_reverse N h]
    exact (flatten_reverse_perm _).symm

/-- Witness for C6 at N = 3. -/
theorem expand_shrink_symmetry_witness :
    2 < 3 ∧ ((expandShells3D 3).isSome = true ∧ (shrinkShells3D 3).isSome = true ∧
      ((expandShells3D 3).getD []).flatten = (expandIterator3D 3).getD [] ∧
      ((shrinkShells3D 3).getD []).flatten = (shrinkIterator3D 3).getD [] ∧
      (shrinkShells3D 3).getD [] = ((expandShells3D 3).getD []).reverse ∧
      (((expandIterator3D 3).getD [] : List Pt) : Multiset Pt) =
        ((shrinkIterator3D 3).getD [] : Multiset Pt)) :=
  ⟨by decide, expand_shrink_symmetry 3 (by decide)⟩

/-- Claim C6 counterexample (original statement): at N = 2 both
traversals and both shell sequences abort at the firing center assert, so
there are no completed shell sequences to compare. -/
theorem expand_shrink_symmetry_abort_at_size_two :
    1 < 2 ∧ expandShells3D 2 = none ∧ shrinkShells3D 2 = none ∧
      expandIterator3D 2 = none ∧ shrinkIterator3D 2 = none := by
  refine ⟨by decide, by decide, by decide, by decide, by decide⟩

/-- Claim C5 (amended): for odd N > 1 the expand traversal completes and
visits the unique center cell (N/2, N/2, N/2) first and exactly once
overall; for even N > 2 it completes and its first eight visited
coordinates are exactly the cells of the 2x2x2 center block
[N/2 - 1, N/2] on each axis, each exactly once; at the even size N = 2
the center assert fires and the traversal aborts with no visits. -/
theorem expand_center_first (N : Nat) (h : 1 < N) :
    (N % 2 = 1 → (expandIterator3D N).isSome = true ∧
      ((expandIterator3D N).getD []).take 1 = [(N / 2, N / 2, N / 2)] ∧
      ((expandIterator3D N).getD []).count (N / 2, N / 2, N / 2) = 1) ∧
    (N % 2 = 0 → 2 < N → (expandIterator3D N).isSome = true ∧
      ∀ q : Pt, (((expandIterator3D N).getD []).take 8).count q =
        if N / 2 - 1 ≤ q.1 ∧ q.1 ≤ N / 2 ∧ N / 2 - 1 ≤ q.2.1 ∧ q.2.1 ≤ N / 2 ∧
            N / 2 - 1 ≤ q.2.2 ∧ q.2.2 ≤ N / 2 then 1 else 0) := by
  constructor
  · intro hodd
    have h3 : 2 < N := by omega
    refine ⟨by rw [expandIterator3D_eq N h3]; rfl, ?_, ?_⟩
    · rw [expandIterator3D_eq N h3, Option.getD_some]
      simp only [prepareIterator3D, runCenterPoints3D, hodd]
      norm_num
    · rw [count_expandIterator3D N h3, cubeInd]
      unfold inCube
      split_ifs <;> simp_all <;> omega
  · intro heven h3
    refine ⟨by rw [expandIterator3D_eq N h3]; rfl, ?_⟩
    intro q
    obtain ⟨a, b, c⟩ := q
    have hcen : runCenterPoints3D (prepareIterator3D N).1 (prepareIterator3D N).2.1
        (prepareIterator3D N).2.2 =
        prod3 (natRangeExcl (N / 2 - 1) (N / 2 - 1 + 2)) (natRangeExcl (N / 2 - 1) (N / 2 - 1 + 2))
          (natRangeExcl (N / 2 - 1) (N / 2 - 1 + 2)) := by
      simp only [prepareIterator3D, runCenterPoints3D, heven]
      norm_num
    have hlen : (runCenterPoints3D (prepareIterator3D N).1 (prepareIterator3D N).2.1
        (prepareIterator3D N).2.2).length = 8 := by
      rw [hcen, length_prod3]
      simp only [length_natRangeExcl]
      rw [show N / 2 - 1 + 2 - (N / 2 - 1) = 2 from by omega]
    rw [expandIterator3D_eq N h3, Option.getD_some, ← hlen, List.take_left]
    rw [hcen, count_prod3, count_natRangeExcl, count_natRangeExcl, count_natRangeExcl]
    dsimp only
    split_ifs <;> omega

/-- Witness for C5: at N = 5 the first visited coordinate is (2, 2, 2);
at N = 4 the center-block cell (1, 1, 1) appears exactly once among the
first eight visited coordinates. -/
theorem expand_center_first_witness :
    1 < 5 ∧ ((expandIterator3D 5).getD []).take 1 = [(2, 2, 2)] ∧
      2 < 4 ∧ (((expandIterator3D 4).getD []).take 8).count (1, 1, 1) = 1 := by
  refine ⟨by decide, ?_, by decide, ?_⟩
  · have h := ((expand_center_first 5 (by decide)).1 (by decide)).2.1
    simpa using h
  · have h := ((expand_center_first 4 (by decide)).2 (by decide) (by decide)).2 (1, 1, 1)
    simpa using h

/-- Claim C5 counterexample (original statement): N = 2 is even and
greater than 1, yet the expand traversal aborts at the firing center
assert with no visited coordinates, so there are no first eight visits. -/
theorem expand_center_first_abort_at_size_two :
    2 % 2 = 0 ∧ 1 < 2 ∧ expandIterator3D 2 = none := by
  refine ⟨by decide, by decide, by decide⟩

/-- Claim C8: for chunk extents (SX, SY, SZ), indexToPos inverts
posToIndex on every in-bounds coordinate, posToIndex inverts indexToPos
on every linear index below SX*SY*SZ, and the linear layout is
z*(SX*SY) + y*SX + x (X fastest, then Y, then Z). -/
theorem roundTrip_indexing (SX SY SZ x y z : Nat) (hx : x < SX) (hy : y < SY) (hz : z < SZ) :
    indexToPos (posToIndex x y z SX (SX * SY)) SX (SX * SY) = (x, y, z) ∧
      (∀ i, i < SX * SY * SZ →
        posToIndex (indexToPos i SX (SX * SY)).1 (indexToPos i SX (SX * SY)).2.1
          (indexToPos i SX (SX * SY)).2.2 SX (SX * SY) = i) ∧
      posToIndex x y z SX (SX * SY) = z * (SX * SY) + y * SX + x := by
  refine ⟨?_, ?_, rfl⟩
  · have hr : y * SX + x < SX * SY := by
      have h1 : y * SX + x < (y + 1) * SX := by
        rw [Nat.add_mul, Nat.one_mul]
        omega
      have h2 : (y + 1) * SX ≤ SY * SX := Nat.mul_le_mul_right SX (by omega)
      rw [Nat.mul_comm SX SY]
      omega
    rw [posToIndex, indexToPos]
    have e0 : z * (SX * SY) + y * SX + x = SX * SY * z + (y * SX + x) := by ring
    rw [e0]
    have ed : (SX * SY * z + (y * SX + x)) / (SX * SY) = z := by
      rw [Nat.mul_add_div (by omega), Nat.div_eq_of_lt hr]
      omega
    have em : (SX * SY * z + (y * SX + x)) % (SX * SY) = y * SX + x := by
      rw [Nat.add_comm, Nat.add_mul_mod_self_left, Nat.mod_eq_of_lt hr]
    rw [ed, em]
    have e1 : y * SX + x = SX * y + x := by ring
    rw [e1]
    have ed2 : (SX * y + x) / SX = y := by
      rw [Nat.mul_add_div (by omega), Nat.div_eq_of_lt hx]
      omega
    have em2 : (SX * y + x) % SX = x := by
      rw [Nat.add_comm, Nat.add_mul_mod_self_left, Nat.mod_eq_of_lt hx]
    rw [ed2, em2]
  · intro i hi
    rw [indexToPos, posToIndex]
    dsimp only
    have e1 : i % (SX * SY) % SX + i % (SX * SY) / SX * SX = i % (SX * SY) :=
      Nat.mod_add_div' (i % (SX * SY)) SX
    have e2 : i % (SX * SY) + i / (SX * SY) * (SX * SY) = i :=
      Nat.mod_add_div' i (SX * SY)
    omega

/-- Witness for C8 in a 2x2x2 chunk at coordinate (1, 1, 1) and linear
index 5. -/
theorem roundTrip_indexing_witness :
    indexToPos (posToIndex 1 1 1 2 4) 2 4 = (1, 1, 1) ∧
      posToIndex (indexToPos 5 2 4).1 (indexToPos 5 2 4).2.1 (indexToPos 5 2 4).2.2 2 4 = 5 := by
  have h := roundTrip_indexing 2 2 2 1 1 1 (by decide) (by decide) (by decide)
  exact ⟨h.1, h.2.1 5 (by decide)⟩

/-- Claim C3 counter-evidence: in a 16x16x16 chunk the per-axis
out-of-bounds coordinate (16, 0, 0) has linear index 16, far below the
array size 4096, so tryGet accepts it and returns the voxel stored at
linear index 16 (which is cell (0, 1, 0)), and trySet likewise accepts
it; the source checks only the linear index, not each axis, contradicting
its own doc comment (true only if the 3D position is inside the chunk
bounds). -/
theorem tryGet_accepts_out_of_bounds_axis :
    Chunk3D.tryGet 16 16 16 (fun i => i) 16 0 0 = some 16 ∧
      ¬ 16 < 16 ∧
      posToIndex 16 0 0 16 (16 * 16) = posToIndex 0 1 0 16 (16 * 16) ∧
      (Chunk3D.trySet 16 16 16 (fun _ => 0) 16 0 0 5).isSome = true ∧
      Chunk3D.tryGet 16 16 16 (fun i => i) 0 0 16 = none := by
  refine ⟨by decide, by decide, by decide, by decide, by decide⟩

/-- Claim C4 (amended): Chunk3D::copy is rejected (assertion, nothing
copied) exactly when the box overflows the destination extents on some
axis or overflows the source length on the X axis; the source's Y and Z
extents are not checked. -/
theorem copy_reject_characterization (SX SY SZ oL oLS cX cY cZ oX oY oZ tX tY tZ : Nat)
    (voxels other : Nat → Nat) :
    Chunk3D.copy SX SY SZ oL oLS voxels other cX cY cZ oX oY oZ tX tY tZ = none ↔
      ¬ (cX + tX ≤ SX ∧ cY + tY ≤ SY ∧ cZ + tZ ≤ SZ ∧ cX + oX ≤ oL) := by
  rw [Chunk3D.copy]
  split_ifs with h
  · simp [h]
  · simp [h]

/-- Claim C4 counterexample: destination 4x4x4, source array of extents
(4, 4, 1) (otherLength 4, otherLayerSize 16, 4*4*1 = 16 elements),
box 1x1x2 at offset zero. The box exceeds the source Z extent (2 > 1),
yet every assert of the source passes: the copy proceeds (isSome) and
reads source linear index 16, one past the 16-element source array. -/
theorem copy_source_overrun_not_rejected :
    (Chunk3D.copy 4 4 4 4 16 (fun _ => 0) (fun i => i) 1 1 2 0 0 0 0 0 0).isSome = true ∧
      ((Chunk3D.copy 4 4 4 4 16 (fun _ => 0) (fun i => i) 1 1 2 0 0 0 0 0 0).getD
        (fun _ => 0)) (posToIndex 0 0 1 4 16) = 16 ∧
      4 * 4 * 1 = 16 ∧ ¬ 0 + 2 ≤ 1 := by
  refine ⟨by decide, by decide, by decide, by decide⟩

/-- Claim C2 counter-evidence: a cluster whose slot 0 holds a valid chunk
(address 1) while the other 26 slots are null makes isComplete return
true, because the source ORs the 27 pointer addresses and converts the
mask to bool, so it answers whether ANY slot is populated, contradicting
its doc comment (are ALL cluster chunks not null); isComplete is false
only when every slot is null. -/
theorem isComplete_true_despite_null_slots :
    Cluster3D.isComplete (1 :: List.replicate 26 0) = true ∧
      (1 :: List.replicate 26 0).length = 27 ∧
      (0 : Nat) ∈ 1 :: List.replicate 26 0 ∧
      Cluster3D.isComplete (List.replicate 27 0) = false := by
  refine ⟨by decide, by decide, by decide, by decide⟩

/-- Claim C7: for a fully populated cluster of 16x16x16 chunks,
getVoxelChunk selects per axis the neighbor index (c + 16) / 16 (in
{0, 1, 2}) and rewrites each coordinate into [0, 16) by subtracting
(index - 1) * 16; consequently getVoxel(-1,5,5) reads the negative-X
neighbor at (15,5,5), getVoxel(16,5,5) reads the positive-X neighbor at
(0,5,5) and getVoxel(5,5,5) reads the center chunk at (5,5,5). -/
theorem cluster_boundary_routing (chunks : Int → Option ChunkFn) (nullVoxel : Nat)
    (cneg cpos ccen : ChunkFn)
    (hcomplete : ∀ i : Int, 0 ≤ i → i < 27 → (chunks i).isSome)
    (hneg : chunks (Cluster3D.posToIndex 0 1 1) = some cneg)
    (hpos : chunks (Cluster3D.posToIndex 2 1 1) = some cpos)
    (hcen : chunks (Cluster3D.posToIndex 1 1 1) = some ccen) :
    (∀ x y z : Int, -16 ≤ x → x ≤ 31 → -16 ≤ y → y ≤ 31 → -16 ≤ z → z ≤ 31 →
      Cluster3D.getVoxelChunk 16 chunks x y z =
        (chunks (Cluster3D.posToIndex ((x + 16) / 16) ((y + 16) / 16) ((z + 16) / 16)),
          x - ((x + 16) / 16 - 1) * 16, y - ((y + 16) / 16 - 1) * 16,
          z - ((z + 16) / 16 - 1) * 16) ∧
      (0 ≤ (x + 16) / 16 ∧ (x + 16) / 16 ≤ 2) ∧
      (0 ≤ (y + 16) / 16 ∧ (y + 16) / 16 ≤ 2) ∧
      (0 ≤ (z + 16) / 16 ∧ (z + 16) / 16 ≤ 2) ∧
      (0 ≤ x - ((x + 16) / 16 - 1) * 16 ∧ x - ((x + 16) / 16 - 1) * 16 < 16) ∧
      (0 ≤ y - ((y + 16) / 16 - 1) * 16 ∧ y - ((y + 16) / 16 - 1) * 16 < 16) ∧
      (0 ≤ z - ((z + 16) / 16 - 1) * 16 ∧ z - ((z + 16) / 16 - 1) * 16 < 16)) ∧
    Cluster3D.getVoxel 16 chunks (-1) 5 5 nullVoxel = Chunk3D.get 16 cneg 15 5 5 ∧
    Cluster3D.getVoxel 16 chunks 16 5 5 nullVoxel = Chunk3D.get 16 cpos 0 5 5 ∧
    Cluster3D.getVoxel 16 chunks 5 5 5 nullVoxel = Chunk3D.get 16 ccen 5 5 5 := by
  refine ⟨?_, ?_, ?_, ?_⟩
  · intro x y z hx1 hx2 hy1 hy2 hz1 hz2
    refine ⟨rfl, by omega, by omega, by omega, by omega, by omega, by omega⟩
  · have e : Cluster3D.getVoxelChunk 16 chunks (-1) 5 5 =
        (chunks (Cluster3D.posToIndex 0 1 1), 15, 5, 5) := by
      rw [Cluster3D.getVoxelChunk]
      norm_num
    rw [Cluster3D.getVoxel, e, hneg]
  · have e : Cluster3D.getVoxelChunk 16 chunks 16 5 5 =
        (chunks (Cluster3D.posToIndex 2 1 1), 0, 5, 5) := by
      rw [Cluster3D.getVoxelChunk]
      norm_num
    rw [Cluster3D.getVoxel, e, hpos]
  · have e : Cluster3D.getVoxelChunk 16 chunks 5 5 5 =
        (chunks (Cluster3D.posToIndex 1 1 1), 5, 5, 5) := by
      rw [Cluster3D.getVoxelChunk]
      norm_num
    rw [Cluster3D.getVoxel, e, hcen]

/-- Witness for C7 with every slot populated by a constant chunk. -/
theorem cluster_boundary_routing_witness :
    Cluster3D.getVoxel 16 (fun _ => some fun _ => 100) (-1) 5 5 0 =
      Chunk3D.get 16 (fun _ => 100) 15 5 5 ∧
    Cluster3D.getVoxel 16 (fun _ => some fun _ => 100) 16 5 5 0 =
      Chunk3D.get 16 (fun _ => 100) 0 5 5 := by
  have h := cluster_boundary_routing (fun _ => some fun _ => 100) 0 (fun _ => 100)
    (fun _ => 100) (fun _ => 100) (fun _ _ _ => rfl) rfl rfl rfl
  exact ⟨h.2.1, h.2.2.1⟩

/-- Claim C9: on a cluster with a null slot, for any in-range relative
coordinate, tryGetVoxel fails (none, out-parameter untouched) exactly
when the routed slot is null and succeeds with the routed chunk's voxel
when the slot is populated; getVoxel on a null-routed coordinate returns
the caller-supplied nullVoxel. -/
theorem tryGetVoxel_incomplete_cluster (L : Int) (hL : 0 < L) (chunks : Int → Option ChunkFn)
    (hnull : ∃ i : Int, 0 ≤ i ∧ i < 27 ∧ chunks i = none)
    (x y z : Int) (hx1 : -L ≤ x) (hx2 : x ≤ 2 * L - 1) (hy1 : -L ≤ y) (hy2 : y ≤ 2 * L - 1)
    (hz1 : -L ≤ z) (hz2 : z ≤ 2 * L - 1) (nullVoxel : Nat) :
    (chunks (Cluster3D.posToIndex ((x + L) / L) ((y + L) / L) ((z + L) / L)) = none →
      Cluster3D.tryGetVoxel L chunks x y z = none ∧
        Cluster3D.getVoxel L chunks x y z nullVoxel = nullVoxel) ∧
    (∀ c : ChunkFn,
      chunks (Cluster3D.posToIndex ((x + L) / L) ((y + L) / L) ((z + L) / L)) = some c →
      Cluster3D.tryGetVoxel L chunks x y z =
        some (Chunk3D.get L c (x - ((x + L) / L - 1) * L) (y - ((y + L) / L - 1) * L)
          (z - ((z + L) / L - 1) * L))) := by
  have hrange : ¬ (x < -L ∨ x > L * 2 - 1 ∨ y < -L ∨ y > L * 2 - 1 ∨ z < -L ∨
      z > L * 2 - 1) := by omega
  have et : Cluster3D.tryGetVoxelChunk L chunks x y z =
      some (Cluster3D.getVoxelChunk L chunks x y z) := by
    rw [Cluster3D.tryGetVoxelChunk, if_neg hrange]
  constructor
  · intro h0
    constructor
    · rw [Cluster3D.tryGetVoxel, et]
      simp [Cluster3D.getVoxelChunk, h0]
    · rw [Cluster3D.getVoxel]
      simp [Cluster3D.getVoxelChunk, h0]
  · intro c hc
    rw [Cluster3D.tryGetVoxel, et]
    simp [Cluster3D.getVoxelChunk, hc]

/-- Witness for C9 at L = 16 with only the central slot populated:
the coordinate (-1, 5, 5) routes to the (null) negative-X neighbor and
fails, while (5, 5, 5) routes to the populated center and succeeds. -/
theorem tryGetVoxel_incomplete_cluster_witness :
    Cluster3D.tryGetVoxel 16 (fun i => if i = 13 then some fun _ => 7 else none) (-1) 5 5 =
        none ∧
      Cluster3D.getVoxel 16 (fun i => if i = 13 then some fun _ => 7 else none) (-1) 5 5 9 =
        9 ∧
      Cluster3D.tryGetVoxel 16 (fun i => if i = 13 then some fun _ => 7 else none) 5 5 5 =
        some (Chunk3D.get 16 (fun _ => 7) 5 5 5) := by
  have h1 := tryGetVoxel_incomplete_cluster 16 (by decide)
    (fun i => if i = 13 then some fun _ => 7 else none) ⟨0, by decide, by decide, by norm_num⟩
    (-1) 5 5 (by decide) (by decide) (by decide) (by decide) (by decide) (by decide) 9
  have h2 := tryGetVoxel_incomplete_cluster 16 (by decide)
    (fun i => if i = 13 then some fun _ => 7 else none) ⟨0, by decide, by decide, by norm_num⟩
    5 5 5 (by decide) (by decide) (by decide) (by decide) (by decide) (by decide) 9
  have ha := h1.1 (by norm_num [Cluster3D.posToIndex])
  have hb := h2.2 (fun _ => 7) (by norm_num [Cluster3D.posToIndex])
  refine ⟨ha.1, ha.2, ?_⟩
  rw [hb]
  norm_num

/-- Claim C10: a cluster constructed with a null chunks argument has all
27 slots null, so tryGetVoxel fails and getVoxel returns the supplied
nullVoxel for every coordinate of the valid range. -/
theorem cluster_null_construction (nullVoxel : Nat) :
    (∀ i : Int, Cluster3D.make none i = none) ∧
    (∀ L : Int, 0 < L → ∀ x y z : Int, -L ≤ x → x ≤ 2 * L - 1 → -L ≤ y → y ≤ 2 * L - 1 →
      -L ≤ z → z ≤ 2 * L - 1 →
      Cluster3D.tryGetVoxel L (Cluster3D.make none) x y z = none ∧
        Cluster3D.getVoxel L (Cluster3D.make none) x y z nullVoxel = nullVoxel) := by
  constructor
  · intro i
    rfl
  · intro L hL x y z hx1 hx2 hy1 hy2 hz1 hz2
    have hrange : ¬ (x < -L ∨ x > L * 2 - 1 ∨ y < -L ∨ y > L * 2 - 1 ∨ z < -L ∨
        z > L * 2 - 1) := by omega
    constructor
    · rw [Cluster3D.tryGetVoxel, Cluster3D.tryGetVoxelChunk, if_neg hrange]
      simp [Cluster3D.getVoxelChunk, Cluster3D.make]
    · rw [Cluster3D.getVoxel]
      simp [Cluster3D.getVoxelChunk, Cluster3D.make]

/-- Witness for C10 at L = 16 and coordinate (-1, 5, 5). -/
theorem cluster_null_construction_witness :
    Cluster3D.make none 13 = none ∧
      Cluster3D.tryGetVoxel 16 (Cluster3D.make none) (-1) 5 5 = none ∧
      Cluster3D.getVoxel 16 (Cluster3D.make none) (-1) 5 5 9 = 9 := by
  have h := cluster_null_construction 9
  have h2 := h.2 16 (by decide) (-1) 5 5 (by decide) (by decide) (by decide) (by decide)
    (by decide) (by decide)
  exact ⟨h.1 13, h2.1, h2.2⟩
